import Mathlib

/-!
Shallow embedding of `src/main.rs` of the `nordic_wellness_booker` repository.

The program books fitness-class slots: per configured activity it wakes on a
cron schedule, fetches the provider's listing, matches one entry by name /
weekday / status, posts a reservation, and retries a bounded number of times.
Network effects are modelled by passing an explicit per-attempt environment
(`AttemptEnv`): the listing fetch result and the booking call result.  Panics
of the Rust code (`unwrap`, `expect`) are modelled as distinguished values.
-/

/-- Days of the week, mirroring `chrono::Weekday`. -/
inductive Weekday
  | mon | tue | wed | thu | fri | sat | sun
deriving DecidableEq, Repr

/-- Embeds `parse_weekday` (src/main.rs:185-196): lowercase the configured day
string and recognize the seven short/long English weekday names.  Rust's
`to_lowercase` is modelled by ASCII `Char.toLower` (the recognized names are
all ASCII). -/
def parse_weekday (value : String) : Option Weekday :=
  let lw := value.toList.map Char.toLower
  if lw = "sun".toList ∨ lw = "sunday".toList then some Weekday.sun
  else if lw = "mon".toList ∨ lw = "monday".toList then some Weekday.mon
  else if lw = "tue".toList ∨ lw = "tuesday".toList then some Weekday.tue
  else if lw = "wed".toList ∨ lw = "wednesday".toList then some Weekday.wed
  else if lw = "thu".toList ∨ lw = "thursday".toList then some Weekday.thu
  else if lw = "fri".toList ∨ lw = "friday".toList then some Weekday.fri
  else if lw = "sat".toList ∨ lw = "saturday".toList then some Weekday.sat
  else none

/-- Gregorian leap-year test, as in `chrono`'s calendar. -/
def isLeap (y : Nat) : Bool := y % 4 == 0 && (y % 100 != 0 || y % 400 == 0)

/-- Days in a month of the proleptic Gregorian calendar. -/
def daysInMonth (y : Nat) (m : Nat) : Nat :=
  if m = 2 then (if isLeap y then 29 else 28)
  else if m = 4 ∨ m = 6 ∨ m = 9 ∨ m = 11 then 30
  else 31

/-- Number of days from 1970-01-01 to the given Gregorian date (Howard
Hinnant's `days_from_civil`, the computation underlying `chrono`'s date
representation), using floor division. -/
def daysFromCivil (y m d : Int) : Int :=
  let yy := if m ≤ 2 then y - 1 else y
  let era := Int.fdiv yy 400
  let yoe := yy - era * 400
  let mp := if m ≤ 2 then m + 9 else m - 3
  let doy := Int.fdiv (153 * mp + 2) 5 + d - 1
  let doe := yoe * 365 + Int.fdiv yoe 4 - Int.fdiv yoe 100 + doy
  era * 146097 + doe - 719468

/-- A parsed naive local timestamp, mirroring `chrono::NaiveDateTime` at
second precision (the only precision the parsed format carries). -/
structure NaiveDateTime where
  year : Nat
  month : Nat
  day : Nat
  hour : Nat
  minute : Nat
  second : Nat
deriving DecidableEq, Repr

/-- Weekday of the timestamp's date (`chrono::Datelike::weekday`):
1970-01-01 was a Thursday. -/
def NaiveDateTime.weekday (t : NaiveDateTime) : Weekday :=
  match Int.emod (daysFromCivil (t.year : Int) (t.month : Int) (t.day : Int) + 3) 7 with
  | 0 => Weekday.mon
  | 1 => Weekday.tue
  | 2 => Weekday.wed
  | 3 => Weekday.thu
  | 4 => Weekday.fri
  | 5 => Weekday.sat
  | _ => Weekday.sun

/-- Read exactly `width` decimal digits from the character list, returning the
value and the remaining characters. -/
def parseFixedNat : Nat → Nat → List Char → Option (Nat × List Char)
  | 0, acc, cs => some (acc, cs)
  | w + 1, acc, cs =>
    match cs with
    | [] => none
    | c :: rest =>
      if c.isDigit then parseFixedNat w (acc * 10 + (c.toNat - 48)) rest else none

/-- Consume one expected literal character. -/
def expectChar (ch : Char) : List Char → Option (List Char)
  | [] => none
  | c :: rest => if c = ch then some rest else none

/-- Embeds `parse_date` (src/main.rs:96-101): `NaiveDateTime::parse_from_str`
with format `"%Y-%m-%dT%H:%M:%S"`, modelled for zero-padded fields.  The whole
input must be consumed and every field must be a valid calendar/clock value,
otherwise the parse fails and the function returns `none`. -/
def parse_date (date_str : String) : Option NaiveDateTime := do
  let cs := date_str.toList
  let (y, cs) ← parseFixedNat 4 0 cs
  let cs ← expectChar '-' cs
  let (mo, cs) ← parseFixedNat 2 0 cs
  let cs ← expectChar '-' cs
  let (d, cs) ← parseFixedNat 2 0 cs
  let cs ← expectChar 'T' cs
  let (h, cs) ← parseFixedNat 2 0 cs
  let cs ← expectChar ':' cs
  let (mi, cs) ← parseFixedNat 2 0 cs
  let cs ← expectChar ':' cs
  let (s, cs) ← parseFixedNat 2 0 cs
  if cs = [] ∧ 1 ≤ mo ∧ mo ≤ 12 ∧ 1 ≤ d ∧ d ≤ daysInMonth y mo ∧ h ≤ 23 ∧ mi ≤ 59 ∧ s ≤ 59 then
    some ⟨y, mo, d, h, mi, s⟩
  else
    none

/-- Does the first character list start with the second? -/
def leadsWith : List Char → List Char → Bool
  | _, [] => true
  | [], _ :: _ => false
  | a :: as, b :: bs => (a == b) && leadsWith as bs

/-- Substring containment on character lists, embedding Rust's
`str::contains` as used at src/main.rs:111-114. -/
def hasSub : List Char → List Char → Bool
  | [], needle => needle.isEmpty
  | a :: as, needle => leadsWith (a :: as) needle || hasSub as needle

/-- Rust `String::to_lowercase`, modelled character-wise by ASCII
`Char.toLower` on the string's characters. -/
def lowerChars (s : String) : List Char := s.toList.map Char.toLower

/-- Embeds the deserialized listing entry `GroupActivity` (src/main.rs:22-54).
Opaque `serde_json::Value` fields are modelled as `Option String`. -/
structure GroupActivity where
  id : Int
  name : String
  image_url : Option String
  description : Option String
  message : Option String
  status : String
  start_time : String
  end_time : String
  location : String
  instructor : String
  instructor_id : Int
  free_slots : Int
  dropin : Int
  drops_amount : Int
  booking_id : Option String
deriving DecidableEq, Repr

/-- Embeds `BookingsDto` (src/main.rs:16-20). -/
structure BookingsDto where
  group_activities : List GroupActivity
deriving DecidableEq, Repr

/-- Embeds the configuration record `BookableActivity` (src/main.rs:175-183). -/
structure BookableActivity where
  name : String
  id : String
  cron_time : String
  user_id : Nat
  day : String
  user_name : String
deriving DecidableEq, Repr

/-- The matching closure passed to `find` at src/main.rs:110-119.  `none`
models a panic of one of the closure's two `unwrap()` calls (unparseable
`start_time`, or unrecognized configured `day`); `some b` is the boolean the
closure returns: case-insensitive name containment AND weekday equality AND
status `"Bookable"`. -/
def matchPred (activity : BookableActivity) (it : GroupActivity) : Option Bool :=
  match parse_date it.start_time, parse_weekday activity.day with
  | some parsed, some target =>
    let same_name := hasSub (lowerChars it.name) (lowerChars activity.name)
    let correct_day := parsed.weekday == target
    let correct_status := it.status == "Bookable"
    some (same_name && correct_day && correct_status)
  | _, _ => none

/-- `Iterator::find` over the listing with the matching closure
(src/main.rs:110-119).  The outer `none` models a panic inside the closure
during matching; `some none` means no entry matched; `some (some g)` is the
first matching entry in provider order. -/
def findMatching (activity : BookableActivity) : List GroupActivity → Option (Option GroupActivity)
  | [] => some none
  | it :: rest =>
    match matchPred activity it with
    | none => none
    | some true => some (some it)
    | some false => findMatching activity rest

/-- An HTTP response (status code and body text) as observed by the booking
code after `response.text()`. -/
structure BookResponse where
  status : Nat
  body : String
deriving DecidableEq, Repr

/-- The status classification after `book_activity` (src/main.rs:137-146):
exactly status 200 is success; any other status becomes an `Err` whose message
carries the status code and the full response body
(`format!("code {}: {}", status.as_str(), text)`). -/
def classify_booking (resp : BookResponse) : Except String Unit :=
  if resp.status ≠ 200 then
    Except.error ("code " ++ toString resp.status ++ ": " ++ resp.body)
  else
    Except.ok ()

/-- Result of the listing fetch (src/main.rs:104-109): the `reqwest::get`/
`text()` calls can fail at the transport layer, `serde_json::from_str` can
fail to parse, or a listing is obtained. -/
inductive FetchResult
  | transportErr (msg : String)
  | parseErr (msg : String)
  | ok (dto : BookingsDto)
deriving DecidableEq, Repr

/-- Result of the booking POST (src/main.rs:74-94): transport failure, or an
HTTP response with status and body. -/
inductive BookCall
  | transportErr (msg : String)
  | ok (resp : BookResponse)
deriving DecidableEq, Repr

/-- The external world seen by one booking attempt: what the listing fetch
returns and what the booking call returns if reached. -/
structure AttemptEnv where
  fetch : FetchResult
  book : BookCall
deriving DecidableEq, Repr

/-- Outcome of one `find_activity_by_name` call or of `run_booking`:
`ok` is Rust's `Ok(())`, `err` is `Err` with the error's message, and
`panicked` models a panic escaping the function. -/
inductive RunResult
  | ok
  | err (msg : String)
  | panicked (msg : String)
deriving DecidableEq, Repr

/-- Embeds `find_activity_by_name` (src/main.rs:103-147) as a pure function of
the attempt's external world.  `RunResult.ok` covers both a successful booking
and the silent `return Ok(())` taken when no listing entry matches
(src/main.rs:120-131); `RunResult.err` is a `?`-propagated or constructed
`Err`; `RunResult.panicked` is a panic inside the matching closure. -/
def find_activity_by_name (activity : BookableActivity) (env : AttemptEnv) : RunResult :=
  match env.fetch with
  | FetchResult.transportErr m => RunResult.err m
  | FetchResult.parseErr m => RunResult.err m
  | FetchResult.ok dto =>
    match findMatching activity dto.group_activities with
    | none => RunResult.panicked "called Option unwrap on a None value"
    | some none => RunResult.ok
    | some (some _) =>
      match env.book with
      | BookCall.transportErr m => RunResult.err m
      | BookCall.ok resp =>
        match classify_booking resp with
        | Except.error m => RunResult.err m
        | Except.ok _ => RunResult.ok

/-- Embeds `run_booking` (src/main.rs:149-164).  `world i` is the external
world seen by attempt number `i` (0-based); indexing `world` with the attempt
counter models that every attempt re-queries the provider.  With
`num_retries = 0` the function returns `Err(activity.name)` without an
attempt; otherwise it runs one attempt and, on `Err`, sleeps one minute and
recurses with the counter decremented. -/
def run_booking (activity : BookableActivity) (world : Nat → AttemptEnv)
    (attempt : Nat) : Nat → RunResult
  | 0 => RunResult.err activity.name
  | n + 1 =>
    match find_activity_by_name activity (world attempt) with
    | RunResult.ok => RunResult.ok
    | RunResult.panicked m => RunResult.panicked m
    | RunResult.err _ => run_booking activity world (attempt + 1) n

/-- Number of times `run_booking` (as embedded above) invokes
`find_activity_by_name`, i.e. the number of booking attempts actually made. -/
def booking_attempts (activity : BookableActivity) (world : Nat → AttemptEnv)
    (attempt : Nat) : Nat → Nat
  | 0 => 0
  | n + 1 =>
    match find_activity_by_name activity (world attempt) with
    | RunResult.err _ => 1 + booking_attempts activity world (attempt + 1) n
    | _ => 1

/-- `chrono` `num_seconds` of the delta `next_time - now` (src/main.rs:223-224),
with the delta modelled in integer milliseconds: whole seconds, truncated
toward zero. -/
def num_seconds (deltaMs : Int) : Int := Int.tdiv deltaMs 1000

/-- The `as u64` cast at src/main.rs:224: two's-complement wrap of an `i64`
value into `u64`. -/
def cast_u64 (n : Int) : Nat := (n % (2 ^ 64 : Int)).toNat

/-- The sleep duration in seconds computed at src/main.rs:224
(`Duration::from_secs(wait_time.num_seconds() as u64)`). -/
def sleep_sec (deltaMs : Int) : Nat := cast_u64 (num_seconds deltaMs)

/-- `chrono::Duration::to_std` (src/main.rs:225): fails exactly on a negative
duration, else yields the same duration (the `.unwrap()` panics on `none`). -/
def to_std (deltaMs : Int) : Option Nat := if deltaMs < 0 then none else some deltaMs.toNat

/-- What the runner does between computing the delta and invoking the retry
controller. -/
inductive WaitBehavior
  | sleeps (secs : Nat)
  | panics
deriving DecidableEq, Repr

/-- The wait performed by the runner loop (src/main.rs:222-230) as a function
of the delta `next_time - now` in milliseconds: `wait_time.to_std().unwrap()`
at src/main.rs:225 panics on a negative delta before the sleep is reached;
otherwise the runner sleeps `sleep_sec` seconds. -/
def runner_wait (deltaMs : Int) : WaitBehavior :=
  match to_std deltaMs with
  | none => WaitBehavior.panics
  | some _ => WaitBehavior.sleeps (sleep_sec deltaMs)

/-- What the runner loop body does after the retry controller returns. -/
inductive IterStep
  | continues
  | taskPanics (msg : String)
deriving DecidableEq, Repr

/-- The continuation of one runner-loop iteration (src/main.rs:231-232):
`run_booking(activity, 3).await.expect("Unable to book!")` panics the task on
`Err`, a panic escaping `run_booking` also panics the task, and only `Ok`
reaches the cooldown sleep and the next iteration. -/
def runner_after_booking (r : RunResult) : IterStep :=
  match r with
  | RunResult.ok => IterStep.continues
  | RunResult.err _ => IterStep.taskPanics "Unable to book!"
  | RunResult.panicked m => IterStep.taskPanics m

/-- How a spawned runner task starts: either the cron parse panics the task
before any scheduling, or scheduling begins with the parsed schedule. -/
inductive RunnerLaunch (S : Type)
  | panicked (msg : String)
  | scheduling (sched : S)
deriving DecidableEq, Repr

/-- The start of the per-activity task body (src/main.rs:205-213): the cron
expression is parsed inside the activity's own spawned task, before the
scheduling loop; on failure the task panics with the `expect` message.
`parse` abstracts `cron::Schedule::from_str`. -/
def runner_task {S : Type} (parse : String → Option S) (a : BookableActivity) : RunnerLaunch S :=
  match parse a.cron_time with
  | none => RunnerLaunch.panicked ("unable to parse cron expression " ++ a.cron_time)
  | some s => RunnerLaunch.scheduling s

/-- The supervisor (src/main.rs:204-235): one independent task is spawned per
configured activity; each task's launch depends only on its own activity. -/
def supervisor_spawn {S : Type} (parse : String → Option S)
    (activities : List BookableActivity) : List (RunnerLaunch S) :=
  activities.map (runner_task parse)

/-- The supervisor's final block (src/main.rs:236-242): a 365-day sleep,
expressed in seconds. -/
def supervisor_wait_secs : Nat := 365 * 86400

/-- When the process exits on its own: `main` returns right after awaiting the
365-day `spawn_blocking` sleep, independently of the runner tasks.  `some t`
means the process exits at `t` seconds after startup; `none` would mean it
never exits on its own. -/
def process_exit_time : Option Nat := some supervisor_wait_secs

/-- Whether the process has exited on its own by time `t` (seconds after
startup). -/
def process_exited (t : Nat) : Bool :=
  match process_exit_time with
  | none => false
  | some e => decide (e ≤ t)

/-- The runner's `for next_time in schedule.upcoming(..)` loop
(src/main.rs:220-233) contains no `break` or `return`: absent a panic it is
still running at every time `t`. -/
def runner_loop_active : Nat → Bool := fun _ => true

/- Concrete fixtures used by witnesses and counterexamples. -/

/-- A configured activity targeting name "Yoga" on Mondays. -/
def aYoga : BookableActivity :=
  { name := "Yoga", id := "123", cron_time := "0 0 8 * * Mon *",
    user_id := 1001, day := "Monday", user_name := "Kim" }

/-- A bookable Monday "Yoga Flow" listing entry (2025-06-02 is a Monday). -/
def gYoga : GroupActivity :=
  { id := 42, name := "Yoga Flow", image_url := none, description := none,
    message := none, status := "Bookable", start_time := "2025-06-02T17:30:00",
    end_time := "2025-06-02T18:30:00", location := "Studio 1", instructor := "Anna",
    instructor_id := 7, free_slots := 5, dropin := 0, drops_amount := 0,
    booking_id := none }

/-- A second, equally matching entry later the same Monday. -/
def gYogaLater : GroupActivity :=
  { gYoga with
    id := 43, start_time := "2025-06-02T19:00:00",
    end_time := "2025-06-02T20:00:00" }

/-- Same slot but with status `"Booked"`: fails the status criterion. -/
def gBooked : GroupActivity := { gYoga with id := 41, status := "Booked" }

/-- An entry whose `start_time` does not parse. -/
def gBadDate : GroupActivity := { gYoga with id := 40, start_time := "not a date" }

/-- An activity whose configured day string is not a recognized weekday. -/
def aBadDay : BookableActivity := { aYoga with day := "Mondayy" }

def dtoEmpty : BookingsDto := { group_activities := [] }

def dtoYoga : BookingsDto := { group_activities := [gYoga] }

/-- Attempt world where the listing fetch fails at the transport layer. -/
def envFail : AttemptEnv :=
  { fetch := FetchResult.transportErr "connection refused",
    book := BookCall.transportErr "unused" }

/-- Attempt world with an empty listing: no entry can match. -/
def envNoMatch : AttemptEnv :=
  { fetch := FetchResult.ok dtoEmpty, book := BookCall.transportErr "unused" }

/-- Attempt world where the matching entry exists and booking returns 200. -/
def envMatchOk : AttemptEnv :=
  { fetch := FetchResult.ok dtoYoga, book := BookCall.ok { status := 200, body := "ok" } }

/-- Attempt world where the matching entry exists and booking returns 400. -/
def envMatch400 : AttemptEnv :=
  { fetch := FetchResult.ok dtoYoga,
    book := BookCall.ok { status := 400, body := "Already booked" } }

/-- Every attempt fails at the transport layer. -/
def worldFail : Nat → AttemptEnv := fun _ => envFail

/-- Attempt 0 fails, every later attempt finds and books the slot. -/
def worldSecond : Nat → AttemptEnv := fun i => if i = 0 then envFail else envMatchOk

/-- Scenario B of the specification: the first two searches find no entry,
the third finds a bookable one whose booking succeeds. -/
def worldScenarioB : Nat → AttemptEnv := fun i => if i < 2 then envNoMatch else envMatchOk

/-- Demonstration cron parser for witnesses: rejects exactly "bad cron". -/
def parseDemo : String → Option Unit := fun s => if s = "bad cron" then none else some ()

/-- An activity with an unparseable cron expression. -/
def aBadCron : BookableActivity :=
  { aYoga with cron_time := "bad cron", user_id := 1002, user_name := "Alex" }

/- Helper lemmas shared by the claim theorems. -/

/-- Characterization of a `true` verdict of the matching closure: both parses
succeed and all three criteria hold. -/
theorem matchPred_true_iff (a : BookableActivity) (g : GroupActivity) :
    matchPred a g = some true ↔
      hasSub (lowerChars g.name) (lowerChars a.name) = true ∧
      (∃ p w, parse_date g.start_time = some p ∧ parse_weekday a.day = some w ∧
        NaiveDateTime.weekday p = w) ∧
      g.status = "Bookable" := by
  cases hp : parse_date g.start_time with
  | none =>
    constructor
    · intro h
      simp [matchPred, hp] at h
    · rintro ⟨-, ⟨p2, w2, hp2, -, -⟩, -⟩
      cases hp2
  | some p =>
    cases hw : parse_weekday a.day with
    | none =>
      constructor
      · intro h
        simp [matchPred, hp, hw] at h
      · rintro ⟨-, ⟨p2, w2, -, hw2, -⟩, -⟩
        cases hw2
    | some w =>
      constructor
      · intro h
        simp only [matchPred, hp, hw, Option.some_inj] at h
        simp only [Bool.and_eq_true, beq_iff_eq] at h
        exact ⟨h.1.1, ⟨p, w, rfl, rfl, h.1.2⟩, h.2⟩
      · rintro ⟨h1, ⟨p2, w2, hp2, hw2, hday⟩, h3⟩
        injection hp2 with hpp
        injection hw2 with hww
        subst hpp
        subst hww
        simp only [matchPred, hp, hw, Option.some_inj]
        simp [h1, h3, hday]

/-- `findMatching` selects the first entry, in provider-returned order, whose
matching verdict is `true`: every earlier entry's verdict is `false`. -/
theorem findMatching_first (a : BookableActivity) :
    ∀ (l : List GroupActivity) (g : GroupActivity),
      findMatching a l = some (some g) →
      ∃ i : Nat, l[i]? = some g ∧ matchPred a g = some true ∧
        ∀ (j : Nat) (gj : GroupActivity), j < i → l[j]? = some gj →
          matchPred a gj = some false := by
  intro l
  induction l with
  | nil => intro g h; simp [findMatching] at h
  | cons x xs ih =>
    intro g h
    unfold findMatching at h
    cases hm : matchPred a x with
    | none => rw [hm] at h; cases h
    | some b =>
      cases b with
      | true =>
        rw [hm] at h
        have hg : x = g := by simpa using h
        subst hg
        exact ⟨0, by simp, hm, fun j gj hj _ => absurd hj (Nat.not_lt_zero j)⟩
      | false =>
        rw [hm] at h
        obtain ⟨i, hget, htrue, hearlier⟩ := ih g h
        refine ⟨i + 1, by simpa using hget, htrue, ?_⟩
        intro j gj hj hgj
        cases j with
        | zero =>
          have : x = gj := by simpa using hgj
          subst this
          exact hm
        | succ jj =>
          exact hearlier jj gj (Nat.lt_of_succ_lt_succ hj) (by simpa using hgj)

/-- A panic of the matching closure on an inspected entry (one for which all
earlier entries evaluated to `false`) propagates: `find` itself panics. -/
theorem findMatching_panic_of_inspected (a : BookableActivity) :
    ∀ (l : List GroupActivity) (i : Nat) (g : GroupActivity),
      l[i]? = some g →
      (∀ j gj, j < i → l[j]? = some gj → matchPred a gj = some false) →
      matchPred a g = none →
      findMatching a l = none := by
  intro l
  induction l with
  | nil => intro i g hg; simp at hg
  | cons x xs ih =>
    intro i g hg hearlier hnone
    cases i with
    | zero =>
      have : x = g := by simpa using hg
      subst this
      simp [findMatching, hnone]
    | succ ii =>
      have hx : matchPred a x = some false :=
        hearlier 0 x (Nat.succ_pos ii) (by simp)
      have hrec := ih ii g (by simpa using hg)
        (fun j gj hj hget =>
          hearlier (j + 1) gj (Nat.succ_lt_succ hj) (by simpa using hget))
        hnone
      simp [findMatching, hx, hrec]

/-- If every attempt from `s` on fails, `run_booking` with counter `n` makes
exactly `n` attempts and ends in `Err(activity.name)`. -/
theorem run_booking_all_fail (a : BookableActivity) (world : Nat → AttemptEnv) :
    ∀ (n s : Nat),
      (∀ i, i < n → ∃ m, find_activity_by_name a (world (s + i)) = RunResult.err m) →
      run_booking a world s n = RunResult.err a.name ∧ booking_attempts a world s n = n := by
  intro n
  induction n with
  | zero => intro s _; exact ⟨rfl, rfl⟩
  | succ k ih =>
    intro s h
    obtain ⟨m, hm⟩ := h 0 (Nat.succ_pos k)
    rw [Nat.add_zero] at hm
    have hrec := ih (s + 1) (fun i hi => by
      obtain ⟨m2, hm2⟩ := h (i + 1) (Nat.succ_lt_succ hi)
      have he : s + (i + 1) = s + 1 + i := by omega
      exact ⟨m2, by rwa [he] at hm2⟩)
    constructor
    · show run_booking a world s (k + 1) = RunResult.err a.name
      unfold run_booking
      rw [hm]
      exact hrec.1
    · have hstep : booking_attempts a world s (k + 1) =
          1 + booking_attempts a world (s + 1) k := by
        simp only [booking_attempts, hm]
      rw [hstep, hrec.2]
      omega


/-- If attempts `s .. s+j-1` fail and attempt `s+j` succeeds (with `j < n`),
`run_booking` with counter `n` makes exactly `j + 1` attempts and succeeds. -/
theorem run_booking_first_success (a : BookableActivity) (world : Nat → AttemptEnv) :
    ∀ (n s j : Nat), j < n →
      (∀ i, i < j → ∃ m, find_activity_by_name a (world (s + i)) = RunResult.err m) →
      find_activity_by_name a (world (s + j)) = RunResult.ok →
      run_booking a world s n = RunResult.ok ∧ booking_attempts a world s n = j + 1 := by
  intro n
  induction n with
  | zero => intro s j hj; exact absurd hj (Nat.not_lt_zero j)
  | succ k ih =>
    intro s j hj hfail hok
    cases j with
    | zero =>
      rw [Nat.add_zero] at hok
      constructor
      · show run_booking a world s (k + 1) = RunResult.ok
        unfold run_booking
        rw [hok]
      · show booking_attempts a world s (k + 1) = 1
        unfold booking_attempts
        rw [hok]
    | succ jj =>
      obtain ⟨m, hm⟩ := hfail 0 (Nat.succ_pos jj)
      rw [Nat.add_zero] at hm
      have hrec := ih (s + 1) jj (Nat.lt_of_succ_lt_succ hj)
        (fun i hi => by
          obtain ⟨m2, hm2⟩ := hfail (i + 1) (Nat.succ_lt_succ hi)
          have he : s + (i + 1) = s + 1 + i := by omega
          exact ⟨m2, by rwa [he] at hm2⟩)
        (by
          have he : s + (jj + 1) = s + 1 + jj := by omega
          rwa [he] at hok)
      constructor
      · show run_booking a world s (k + 1) = RunResult.ok
        unfold run_booking
        rw [hm]
        exact hrec.1
      · have hstep : booking_attempts a world s (k + 1) =
            1 + booking_attempts a world (s + 1) k := by
          simp only [booking_attempts, hm]
        rw [hstep, hrec.2]
        omega

/- Claim theorems. -/

/-- Claim C1: for the Retry Controller `run_booking` with max-attempts `N`:
if every attempt fails, exactly `N` attempts are made and the final outcome is
`Err(activity.name)` (an error naming the activity); if the first success
occurs on attempt `k ≤ N` (1-based), exactly `k` attempts are made and the
outcome is `Ok`. -/
theorem claim_c1_retry_controller (a : BookableActivity) (world : Nat → AttemptEnv) (N : Nat) :
    ((∀ i, i < N → ∃ m, find_activity_by_name a (world i) = RunResult.err m) →
      run_booking a world 0 N = RunResult.err a.name ∧
      booking_attempts a world 0 N = N)
  ∧ (∀ k, 0 < k → k ≤ N →
      (∀ i, i < k - 1 → ∃ m, find_activity_by_name a (world i) = RunResult.err m) →
      find_activity_by_name a (world (k - 1)) = RunResult.ok →
      run_booking a world 0 N = RunResult.ok ∧
      booking_attempts a world 0 N = k) := by
  constructor
  · intro h
    exact run_booking_all_fail a world N 0 (fun i hi => by
      simpa [Nat.zero_add] using h i hi)
  · intro k hk hkN hfail hok
    have hj : k - 1 < N := by omega
    have hres := run_booking_first_success a world N 0 (k - 1) hj
      (fun i hi => by simpa [Nat.zero_add] using hfail i hi)
      (by simpa [Nat.zero_add] using hok)
    refine ⟨hres.1, ?_⟩
    rw [hres.2]
    omega

/-- Witness for C1 at concrete inputs: with every attempt failing and
max-attempts 3, exactly 3 attempts and `Err("Yoga")`; with the first success
on attempt 2, exactly 2 attempts and `Ok`. -/
theorem claim_c1_witness :
    (run_booking aYoga worldFail 0 3 = RunResult.err "Yoga" ∧
      booking_attempts aYoga worldFail 0 3 = 3)
  ∧ (run_booking aYoga worldSecond 0 3 = RunResult.ok ∧
      booking_attempts aYoga worldSecond 0 3 = 2) := by
  constructor
  · exact (claim_c1_retry_controller aYoga worldFail 3).1
      (fun i _ => ⟨"connection refused", rfl⟩)
  · exact (claim_c1_retry_controller aYoga worldSecond 3).2 2 (by decide) (by decide)
      (fun i hi => by
        have hi0 : i = 0 := by omega
        subst hi0
        exact ⟨"connection refused", rfl⟩)
      (by rfl)

/-- Claim C2 is refuted: in the specification's scenario B (no matching entry
on the first two searches, a bookable match on the third), the code does NOT
consume 2 failed attempts and succeed on attempt 3.  A search that finds no
candidate takes the silent `return Ok(())` branch (src/main.rs:120-131), which
`run_booking` counts as success: the controller stops after 1 attempt. -/
theorem claim_c2_counterexample :
    run_booking aYoga worldScenarioB 0 3 = RunResult.ok ∧
    booking_attempts aYoga worldScenarioB 0 3 = 1 ∧
    booking_attempts aYoga worldScenarioB 0 3 ≠ 3 := by
  refine ⟨rfl, rfl, by decide⟩

/-- Claim C2 amended: when the Slot Matcher finds no candidate,
`find_activity_by_name` logs and returns `Ok(())`, which the Retry Controller
treats as success — it stops after the first such attempt (1 attempt consumed,
outcome `Ok`, nothing booked), rather than retrying. -/
theorem claim_c2_amended (a : BookableActivity) (env : AttemptEnv) (dto : BookingsDto)
    (world : Nat → AttemptEnv) (n : Nat)
    (hf : env.fetch = FetchResult.ok dto)
    (hm : findMatching a dto.group_activities = some none)
    (hw : world 0 = env) :
    find_activity_by_name a env = RunResult.ok ∧
    run_booking a world 0 (n + 1) = RunResult.ok ∧
    booking_attempts a world 0 (n + 1) = 1 := by
  have hfind : find_activity_by_name a env = RunResult.ok := by
    simp only [find_activity_by_name, hf, hm]
  refine ⟨hfind, ?_, ?_⟩
  · simp only [run_booking, hw, hfind]
  · simp only [booking_attempts, hw, hfind]

/-- Witness for the amended C2 at concrete inputs: scenario B's world, whose
first search yields an empty listing. -/
theorem claim_c2_witness :
    find_activity_by_name aYoga envNoMatch = RunResult.ok ∧
    run_booking aYoga worldScenarioB 0 3 = RunResult.ok ∧
    booking_attempts aYoga worldScenarioB 0 3 = 1 :=
  claim_c2_amended aYoga envNoMatch dtoEmpty worldScenarioB 2 rfl rfl rfl

/-- Claim C3: for every reservation attempt that reaches an HTTP response,
the outcome is success if and only if the status is exactly 200; every other
status (including 400) produces an error carrying both the status code and
the full response body, which `find_activity_by_name` surfaces as its `Err`. -/
theorem claim_c3_booking_status :
    (∀ resp : BookResponse,
      (classify_booking resp = Except.ok () ↔ resp.status = 200) ∧
      (resp.status ≠ 200 →
        classify_booking resp =
          Except.error ("code " ++ toString resp.status ++ ": " ++ resp.body)))
  ∧ (∀ (a : BookableActivity) (env : AttemptEnv) (dto : BookingsDto)
        (g : GroupActivity) (resp : BookResponse),
      env.fetch = FetchResult.ok dto →
      findMatching a dto.group_activities = some (some g) →
      env.book = BookCall.ok resp →
      ((find_activity_by_name a env = RunResult.ok ↔ resp.status = 200) ∧
        (resp.status ≠ 200 →
          find_activity_by_name a env =
            RunResult.err ("code " ++ toString resp.status ++ ": " ++ resp.body)))) := by
  constructor
  · intro resp
    by_cases h : resp.status = 200
    · constructor
      · simp [classify_booking, h]
      · intro hne; exact absurd h hne
    · constructor
      · simp [classify_booking, h]
      · intro _; simp [classify_booking, h]
  · intro a env dto g resp hf hm hb
    by_cases h : resp.status = 200
    · constructor
      · simp [find_activity_by_name, hf, hm, hb, classify_booking, h]
      · intro hne; exact absurd h hne
    · constructor
      · simp [find_activity_by_name, hf, hm, hb, classify_booking, h]
      · intro _; simp [find_activity_by_name, hf, hm, hb, classify_booking, h]

/-- Witness for C3 at concrete inputs: status 400 with body "Already booked"
yields exactly `Err("code 400: Already booked")`, both for the classification
alone and through `find_activity_by_name`. -/
theorem claim_c3_witness :
    classify_booking { status := 400, body := "Already booked" } =
      Except.error "code 400: Already booked" ∧
    find_activity_by_name aYoga envMatch400 = RunResult.err "code 400: Already booked" := by
  constructor
  · exact (claim_c3_booking_status.1 { status := 400, body := "Already booked" }).2
      (by decide)
  · exact (claim_c3_booking_status.2 aYoga envMatch400 dtoYoga gYoga
      { status := 400, body := "Already booked" } rfl rfl rfl).2 (by decide)

/-- Claim C4: the Slot Matcher selects an entry only if it simultaneously
satisfies all three criteria — the entry's lowercased name contains the
configured name (case-insensitively), a start time that parses and whose
weekday equals the parsed configured weekday, and status exactly "Bookable". -/
theorem claim_c4_match_criteria (a : BookableActivity) (l : List GroupActivity)
    (g : GroupActivity) (h : findMatching a l = some (some g)) :
    hasSub (lowerChars g.name) (lowerChars a.name) = true ∧
    (∃ p w, parse_date g.start_time = some p ∧ parse_weekday a.day = some w ∧
      NaiveDateTime.weekday p = w) ∧
    g.status = "Bookable" := by
  obtain ⟨i, -, htrue, -⟩ := findMatching_first a l g h
  exact (matchPred_true_iff a g).1 htrue

/-- Witness for C4 at a concrete listing: from a listing where the selected
entry is `gYoga`, all three criteria hold of it. -/
theorem claim_c4_witness :
    hasSub (lowerChars gYoga.name) (lowerChars aYoga.name) = true ∧
    (∃ p w, parse_date gYoga.start_time = some p ∧ parse_weekday aYoga.day = some w ∧
      NaiveDateTime.weekday p = w) ∧
    gYoga.status = "Bookable" :=
  claim_c4_match_criteria aYoga [gBooked, gYoga] gYoga rfl

/-- Claim C5: the Slot Matcher preserves provider response order — whenever it
selects an entry, that entry sits at an index all of whose earlier entries
evaluated to a `false` match verdict, so an earlier equally-matching entry
would have been chosen instead. -/
theorem claim_c5_provider_order (a : BookableActivity) (l : List GroupActivity)
    (g : GroupActivity) (h : findMatching a l = some (some g)) :
    ∃ i : Nat, l[i]? = some g ∧ matchPred a g = some true ∧
      ∀ (j : Nat) (gj : GroupActivity), j < i → l[j]? = some gj →
        matchPred a gj = some false :=
  findMatching_first a l g h

/-- Witness for C5 at a concrete listing with two equally matching entries:
the selected entry is the earlier one (`gYoga`, not `gYogaLater`). -/
theorem claim_c5_witness :
    ∃ i : Nat, ([gYoga, gYogaLater] : List GroupActivity)[i]? = some gYoga ∧
      matchPred aYoga gYoga = some true ∧
      ∀ (j : Nat) (gj : GroupActivity), j < i →
        ([gYoga, gYogaLater] : List GroupActivity)[j]? = some gj →
        matchPred aYoga gj = some false :=
  claim_c5_provider_order aYoga [gYoga, gYogaLater] gYoga rfl

/-- Claim C6 is refuted: a negative delta is not treated as "fire
immediately".  At delta -1000 ms the runner panics (at
`wait_time.to_std().unwrap()`, src/main.rs:225), and the seconds value
computed for the sleep wraps through the `i64 as u64` cast to 2^64 - 1.
Moreover a sub-second positive delta (future instant) yields a zero wait, not
a strictly positive one. -/
theorem claim_c6_counterexample :
    runner_wait (-1000) = WaitBehavior.panics ∧
    sleep_sec (-1000) = 2 ^ 64 - 1 ∧
    runner_wait 500 = WaitBehavior.sleeps 0 := by
  refine ⟨rfl, by decide, rfl⟩

/-- Claim C6 amended: for a non-negative delta the runner sleeps the delta
truncated to whole seconds (zero for sub-second deltas); for a negative delta
the runner panics instead of waiting zero.  The range hypothesis reflects that
the delta is an `i64`-backed `chrono` duration. -/
theorem claim_c6_amended (d : Int) (hrange : num_seconds d < 2 ^ 64) :
    (0 ≤ d → runner_wait d = WaitBehavior.sleeps (Int.toNat (num_seconds d)))
  ∧ (d < 0 → runner_wait d = WaitBehavior.panics) := by
  constructor
  · intro hd
    have hnn : 0 ≤ num_seconds d := Int.tdiv_nonneg hd (by decide)
    have hne : ¬ d < 0 := by omega
    simp only [runner_wait, to_std, hne, if_false, sleep_sec, cast_u64]
    rw [Int.emod_eq_of_lt hnn hrange]
  · intro hd
    simp only [runner_wait, to_std, hd, if_true]

/-- Witness for the amended C6 at concrete deltas: 1500 ms sleeps 1 second,
-2000 ms panics. -/
theorem claim_c6_witness :
    runner_wait 1500 = WaitBehavior.sleeps 1 ∧
    runner_wait (-2000) = WaitBehavior.panics := by
  constructor
  · exact (claim_c6_amended 1500 (by decide)).1 (by decide)
  · exact (claim_c6_amended (-2000) (by decide)).2 (by decide)

/-- Claim C7 is refuted: when the Retry Controller ends in `Err` (exhausted
retries), the runner does not proceed to the next occurrence — the `expect`
at src/main.rs:231 panics the task. -/
theorem claim_c7_counterexample :
    runner_after_booking (RunResult.err "Yoga") = IterStep.taskPanics "Unable to book!" ∧
    runner_after_booking (RunResult.err "Yoga") ≠ IterStep.continues := by
  exact ⟨rfl, by decide⟩

/-- Claim C7 amended: on an `Err` outcome of `run_booking` the runner task
panics with message "Unable to book!" and its loop exits (the panic is
confined to that activity's spawned task); only an `Ok` outcome reaches the
cooldown and the next iteration. -/
theorem claim_c7_amended (m : String) :
    runner_after_booking (RunResult.err m) = IterStep.taskPanics "Unable to book!" ∧
    runner_after_booking RunResult.ok = IterStep.continues :=
  ⟨rfl, rfl⟩

/-- Claim C8: the cron expression is parsed per-activity inside that
activity's own spawned task; a parse failure panics (aborts) that task before
any scheduling begins, and each spawned task's launch is a function of its own
activity alone, so co-running activities with valid expressions are
unaffected. -/
theorem claim_c8_parse_isolation {S : Type} (parse : String → Option S)
    (activities : List BookableActivity) (i : Nat) (a : BookableActivity)
    (ha : activities[i]? = some a) :
    (supervisor_spawn parse activities)[i]? = some (runner_task parse a) ∧
    (parse a.cron_time = none →
      runner_task parse a =
        RunnerLaunch.panicked ("unable to parse cron expression " ++ a.cron_time)) := by
  constructor
  · simp only [supervisor_spawn, List.getElem?_map, ha, Option.map_some']
  · intro hp
    simp only [runner_task, hp]

/-- Witness for C8 at a concrete configuration: the second activity's cron
expression fails to parse and its task panics, while its launch value in the
spawned list is still exactly the one computed from that activity alone. -/
theorem claim_c8_witness :
    (supervisor_spawn parseDemo [aYoga, aBadCron])[1]? =
      some (runner_task parseDemo aBadCron) ∧
    runner_task parseDemo aBadCron =
      RunnerLaunch.panicked "unable to parse cron expression bad cron" := by
  have h := claim_c8_parse_isolation parseDemo [aYoga, aBadCron] 1 aBadCron rfl
  exact ⟨h.1, h.2 rfl⟩

/-- Claim C9 is refuted: the supervisor does not block for the remaining
process lifetime.  It blocks for a fixed 365-day sleep: at t = 31536000
seconds the runner loops are still active (they never exit on their own) yet
the process has exited on its own. -/
theorem claim_c9_counterexample :
    process_exit_time = some 31536000 ∧
    runner_loop_active 31536000 = true ∧
    process_exited 31536000 = true := by
  refine ⟨by decide, rfl, by decide⟩

/-- Claim C9 amended: after spawning the runners, `main` blocks on a fixed
365-day sleep — the process stays alive before 31536000 seconds and exits on
its own from that moment on, regardless of the (still active) runner loops. -/
theorem claim_c9_amended (t : Nat) :
    (process_exited t = true ↔ supervisor_wait_secs ≤ t) ∧
    runner_loop_active t = true := by
  constructor
  · simp [process_exited, process_exit_time]
  · rfl

/-- Claim C10: the matching predicate is partial — it panics (models `none`)
on every inspected entry whose `start_time` does not parse, and for every
configured day string that is not a recognized weekday name; such a panic on
an inspected entry (all earlier entries having matched `false`) makes the
whole search panic. -/
theorem claim_c10_partial_predicate :
    (∀ (a : BookableActivity) (g : GroupActivity),
      parse_date g.start_time = none → matchPred a g = none)
  ∧ (∀ (a : BookableActivity) (g : GroupActivity),
      parse_weekday a.day = none → matchPred a g = none)
  ∧ (∀ (a : BookableActivity) (l : List GroupActivity) (i : Nat) (g : GroupActivity),
      l[i]? = some g →
      (∀ (j : Nat) (gj : GroupActivity), j < i → l[j]? = some gj →
        matchPred a gj = some false) →
      matchPred a g = none →
      findMatching a l = none) := by
  refine ⟨?_, ?_, ?_⟩
  · intro a g h
    simp only [matchPred, h]
  · intro a g h
    cases hp : parse_date g.start_time with
    | none => simp only [matchPred, hp]
    | some p => simp only [matchPred, hp, h]
  · intro a l i g hg hearlier hnone
    exact findMatching_panic_of_inspected a l i g hg hearlier hnone

/-- Witness for C10 at concrete inputs: an unparseable `start_time` makes the
predicate panic and the search panic; an unrecognized configured day string
makes the predicate panic even on a parseable entry. -/
theorem claim_c10_witness :
    matchPred aYoga gBadDate = none ∧
    matchPred aBadDay gYoga = none ∧
    findMatching aYoga [gBadDate] = none := by
  have h1 := claim_c10_partial_predicate.1 aYoga gBadDate rfl
  have h2 := claim_c10_partial_predicate.2.1 aBadDay gYoga rfl
  have h3 := claim_c10_partial_predicate.2.2 aYoga [gBadDate] 0 gBadDate rfl
    (fun j gj hj _ => absurd hj (Nat.not_lt_zero j)) h1
  exact ⟨h1, h2, h3⟩
